import Mathlib

/-!
Verification development for the licensed-aura pallet
(src/pallets/licensed-aura/src/lib.rs and src/pallets/licensed-aura/src/filter.rs).

The consensus-visible pallet storage (HaltProduction, HaltedAtBlock, HaltReason,
LicenseKey, CurrentSlot) is modelled as an explicit ChainState record.  The
node-local offchain storage entries (licensed_aura::halt_requested and
licensed_aura::last_check) are modelled as an OffchainState record.  Block
numbers, slots and millisecond timestamps are Nat (the Rust code only uses
saturating subtraction on block numbers, which is Nat subtraction).  A Rust
panic during block initialization rejects the block: it is modelled as an
Except.error result, and a rejected block commits no consensus state.
-/

namespace LicensedAura

/-- Consensus-visible storage of the pallet: CurrentSlot, HaltProduction,
HaltedAtBlock, HaltReason (bytes, bounded by 256 at the writes), LicenseKey
(bytes, bounded by 128 at the writes). -/
structure ChainState where
  currentSlot : Nat
  haltProduction : Bool
  haltedAtBlock : Option Nat
  haltReason : Option (List Nat)
  licenseKey : Option (List Nat)
deriving DecidableEq

/-- Node-local offchain storage: the halt_requested flag and the last_check
millisecond timestamp.  none models an absent entry; StorageValueRef.clear
makes the entry absent. -/
structure OffchainState where
  haltRequested : Option Bool
  lastCheck : Option Nat
deriving DecidableEq

/-- Inputs of the original Aura part of on_initialize: the slot taken from the
pre-runtime digests (none when no Aura digest is present), the
AllowMultipleBlocksPerSlot flag, the decoded length of the Authorities storage
(none when the storage entry is absent), and the DisabledValidators predicate. -/
structure SlotInput where
  newSlot : Option Nat
  allowMultiple : Bool
  nAuthorities : Option Nat
  disabled : Nat → Bool

/-- Dispatch origins relevant to the pallet calls: ensure_root accepts Root,
ensure_none accepts NoOrigin. -/
inductive Origin where
  | Root
  | Signed (who : Nat)
  | NoOrigin
deriving DecidableEq

/-- Errors of the pallet (the Error enum) together with BadOrigin from the
origin checks. -/
inductive DispatchError where
  | BadOrigin
  | ReasonTooLong
  | LicenseKeyTooLong
  | LicenseKeyNotSet
deriving DecidableEq

/-- Events of the pallet. -/
inductive Event where
  | ProductionHalted (block_number : Nat)
  | ProductionResumed (block_number : Nat)
deriving DecidableEq

/-- Byte list of the fixed reason written by on_initialize when it consumes the
offchain halt request (39 bytes, within the 256-byte bound, so the
try_from ... unwrap_or_default in the source yields exactly these bytes). -/
def offchainHaltReason : List Nat :=
  (("License check failed by offchain worker").toList).map Char.toNat

/-- First phase of on_initialize (lib.rs lines 149-162): read the node-local
halt_requested flag; if it is set and HaltProduction is not, set
HaltProduction, record HaltedAtBlock = current block, store the fixed reason,
and clear the flag. -/
def consume_halt_request (n : Nat) (st : ChainState) (off : OffchainState) :
    ChainState × OffchainState :=
  match off.haltRequested with
  | some true =>
    if st.haltProduction then (st, off)
    else
      ({ st with haltProduction := true, haltedAtBlock := some n,
                 haltReason := some offchainHaltReason },
       { off with haltRequested := none })
  | _ => (st, off)

/-- Second phase of on_initialize (lib.rs lines 164-205): if halted and a start
block is recorded, auto-resume when more than 100 blocks have elapsed
(saturating subtraction), otherwise panic (reject the block).  If halted with
no recorded start block, the code writes HaltedAtBlock and then panics: the
block is rejected and the write is discarded with it. -/
def halt_check (n : Nat) (st : ChainState) : Except String ChainState :=
  if st.haltProduction then
    match st.haltedAtBlock with
    | some halted_at =>
      if n - halted_at > 100 then
        Except.ok { st with haltProduction := false, haltedAtBlock := none, haltReason := none }
      else
        Except.error ("Block production halted")
    | none => Except.error ("Block production halted, no recorded block")
  else Except.ok st

/-- Authority part of the Aura slot logic (lib.rs lines 219-227): when the
authorities storage decodes to a length, the author index is the slot modulo
that length (a Rust remainder by zero panics), and a disabled author panics. -/
def slot_author_check (new_slot : Nat) (st : ChainState) (inp : SlotInput) :
    Except String ChainState :=
  match inp.nAuthorities with
  | none => Except.ok st
  | some n_authorities =>
    if n_authorities = 0 then Except.error ("remainder by zero")
    else if inp.disabled (new_slot % n_authorities) then
      Except.error ("Validator is disabled and should not be attempting to author blocks")
    else Except.ok st

/-- Original Aura slot logic of on_initialize (lib.rs lines 208-235): when a
slot digest is present the slot must not decrease (strictly increase unless
AllowMultipleBlocksPerSlot), CurrentSlot is updated, and the author check
runs.  A failed assert panics, rejecting the block. -/
def aura_slot_check (st : ChainState) (inp : SlotInput) : Except String ChainState :=
  match inp.newSlot with
  | none => Except.ok st
  | some new_slot =>
    if inp.allowMultiple then
      if st.currentSlot ≤ new_slot then
        slot_author_check new_slot { st with currentSlot := new_slot } inp
      else Except.error ("Slot must not decrease")
    else
      if st.currentSlot < new_slot then
        slot_author_check new_slot { st with currentSlot := new_slot } inp
      else Except.error ("Slot must increase")

/-- The on_initialize hook (lib.rs lines 148-236), composed of the three phases
of the source in order.  An error models a panic: the block is rejected and no
consensus state is committed. -/
def on_initialize (n : Nat) (st : ChainState) (off : OffchainState) (inp : SlotInput) :
    Except String (ChainState × OffchainState) :=
  match halt_check n (consume_halt_request n st off).1 with
  | Except.error e => Except.error e
  | Except.ok st2 =>
    match aura_slot_check st2 inp with
    | Except.error e => Except.error e
    | Except.ok st3 => Except.ok (st3, (consume_halt_request n st off).2)

/-- Internal halt helper (lib.rs lines 448-459): set HaltProduction, then store
the reason when one is given, failing with ReasonTooLong when it exceeds 256
bytes. -/
def halt_production_internal (st : ChainState) (reason : Option (List Nat)) :
    Except DispatchError ChainState :=
  let st1 := { st with haltProduction := true }
  match reason with
  | none => Except.ok st1
  | some r =>
    if r.length ≤ 256 then Except.ok { st1 with haltReason := some r }
    else Except.error DispatchError.ReasonTooLong

/-- Internal resume helper (lib.rs lines 463-468): clear HaltProduction,
HaltedAtBlock and HaltReason. -/
def resume_production_internal (st : ChainState) : ChainState :=
  { st with haltProduction := false, haltedAtBlock := none, haltReason := none }

/-- The sudo_halt_production call (lib.rs lines 297-309): root origin, halt with
the given reason, deposit ProductionHalted with the current block number. -/
def sudo_halt_production (st : ChainState) (origin : Origin) (reason : Option (List Nat))
    (current_block : Nat) : Except DispatchError (ChainState × List Event) :=
  if origin = Origin.Root then
    match halt_production_internal st reason with
    | Except.ok st1 => Except.ok (st1, [Event.ProductionHalted current_block])
    | Except.error e => Except.error e
  else Except.error DispatchError.BadOrigin

/-- The sudo_resume_production call (lib.rs lines 314-323): root origin, resume,
deposit ProductionResumed with the current block number. -/
def sudo_resume_production (st : ChainState) (origin : Origin) (current_block : Nat) :
    Except DispatchError (ChainState × List Event) :=
  if origin = Origin.Root then
    Except.ok (resume_production_internal st, [Event.ProductionResumed current_block])
  else Except.error DispatchError.BadOrigin

/-- The offchain_worker_halt_production call (lib.rs lines 329-342): none
origin (unsigned), halt with the given reason, deposit ProductionHalted. -/
def offchain_worker_halt_production (st : ChainState) (origin : Origin)
    (reason : Option (List Nat)) (current_block : Nat) :
    Except DispatchError (ChainState × List Event) :=
  if origin = Origin.NoOrigin then
    match halt_production_internal st reason with
    | Except.ok st1 => Except.ok (st1, [Event.ProductionHalted current_block])
    | Except.error e => Except.error e
  else Except.error DispatchError.BadOrigin

/-- The set_license_key call (lib.rs lines 347-356): root origin, replace the
stored key, failing with LicenseKeyTooLong when the input exceeds 128 bytes. -/
def set_license_key (st : ChainState) (origin : Origin) (license_key : List Nat) :
    Except DispatchError (ChainState × List Event) :=
  if origin = Origin.Root then
    if license_key.length ≤ 128 then
      Except.ok ({ st with licenseKey := some license_key }, [])
    else Except.error DispatchError.LicenseKeyTooLong
  else Except.error DispatchError.BadOrigin

/-- Modelled from the spec: the generic dispatch pipeline is out of scope of the
source (spec section 1) and specified only at its interface; spec section 7
states that an input-validation error leaves the operation rejected with no
state change, so the post-dispatch state of an errored call is the pre-call
state. -/
def dispatched (st : ChainState) (r : Except DispatchError (ChainState × List Event)) :
    ChainState :=
  match r with
  | Except.ok p => p.1
  | Except.error _ => st

/-- The read-only is_halted helper (lib.rs lines 471-473). -/
def is_halted (st : ChainState) : Bool :=
  st.haltProduction

/-- Abstraction of a RuntimeCall as seen by the filter (filter.rs lines
98-118): the five predicates provided by the IsLicensedAuraCall,
IsTimestampCall and IsSudoCall traits, whose implementations live in the
runtime outside this crate. -/
structure RuntimeCall where
  is_sudo_resume_production : Bool
  is_offchain_worker_halt : Bool
  is_offchain_worker_resume : Bool
  is_sudo_wrapping_allowed : Bool
  is_timestamp_set : Bool
deriving DecidableEq

/-- allowed_while_halted (filter.rs lines 44-57): direct resume or halt calls of
the pallet, the unprivileged resume predicate, and a sudo call wrapping an
allowed call. -/
def allowed_while_halted (call : RuntimeCall) : Bool :=
  if call.is_sudo_resume_production then true
  else if call.is_offchain_worker_halt then true
  else if call.is_offchain_worker_resume then true
  else if call.is_sudo_wrapping_allowed then true
  else false

/-- AuraHaltFilter::contains (filter.rs lines 65-95): always admit timestamp
set; otherwise admit everything while running and only the whitelist while
halted. -/
def AuraHaltFilter.contains (st : ChainState) (call : RuntimeCall) : Bool :=
  if call.is_timestamp_set then true
  else if is_halted st then allowed_while_halted call
  else true

/-- A continuation byte of a UTF-8 sequence. -/
def utf8Cont (b : Nat) : Bool :=
  0x80 ≤ b && b ≤ 0xBF

/-- Validity of a byte list as UTF-8, as decided by str::from_utf8 (used by the
offchain checker on the stored license key). -/
def utf8Valid : List Nat → Bool
  | [] => true
  | b :: rest =>
    if b ≤ 0x7F then utf8Valid rest
    else if 0xC2 ≤ b && b ≤ 0xDF then
      match rest with
      | c1 :: r => utf8Cont c1 && utf8Valid r
      | [] => false
    else if b = 0xE0 then
      match rest with
      | c1 :: c2 :: r => (0xA0 ≤ c1 && c1 ≤ 0xBF) && utf8Cont c2 && utf8Valid r
      | _ => false
    else if (0xE1 ≤ b && b ≤ 0xEC) || b = 0xEE || b = 0xEF then
      match rest with
      | c1 :: c2 :: r => utf8Cont c1 && utf8Cont c2 && utf8Valid r
      | _ => false
    else if b = 0xED then
      match rest with
      | c1 :: c2 :: r => (0x80 ≤ c1 && c1 ≤ 0x9F) && utf8Cont c2 && utf8Valid r
      | _ => false
    else if b = 0xF0 then
      match rest with
      | c1 :: c2 :: c3 :: r =>
        (0x90 ≤ c1 && c1 ≤ 0xBF) && utf8Cont c2 && utf8Cont c3 && utf8Valid r
      | _ => false
    else if 0xF1 ≤ b && b ≤ 0xF3 then
      match rest with
      | c1 :: c2 :: c3 :: r => utf8Cont c1 && utf8Cont c2 && utf8Cont c3 && utf8Valid r
      | _ => false
    else if b = 0xF4 then
      match rest with
      | c1 :: c2 :: c3 :: r =>
        (0x80 ≤ c1 && c1 ≤ 0x8F) && utf8Cont c2 && utf8Cont c3 && utf8Valid r
      | _ => false
    else false

/-- The Rust char::is_whitespace predicate (the Unicode White_Space property),
used by str::trim_start in the response parser. -/
def rustIsWhitespace (c : Char) : Bool :=
  let n := c.toNat
  (0x09 ≤ n && n ≤ 0x0D) || n = 0x20 || n = 0x85 || n = 0xA0 || n = 0x1680 ||
    (0x2000 ≤ n && n ≤ 0x200A) || n = 0x2028 || n = 0x2029 || n = 0x202F ||
    n = 0x205F || n = 0x3000

/-- Whether the first list is a leading segment of the second
(str::starts_with for literal patterns). -/
def startsWithList : List Char → List Char → Bool
  | [], _ => true
  | _ :: _, [] => false
  | a :: tl, b :: bs => a = b && startsWithList tl bs

/-- Index of the first occurrence of needle in hay (str::find for literal
patterns; for the ASCII needles used here the byte index of the source equals
this character index). -/
def findSub (needle : List Char) : List Char → Option Nat
  | [] => if startsWithList needle [] then some 0 else none
  | c :: rest =>
    if startsWithList needle (c :: rest) then some 0
    else (findSub needle rest).map (fun i => i + 1)

/-- The seven characters of the quoted key searched for in the response body:
a double quote, the word valid, a double quote. -/
def validKeyChars : List Char :=
  ("\"valid\"").toList

/-- The four characters of the literal true. -/
def trueChars : List Char :=
  ("true").toList

/-- parse_license_response (lib.rs lines 544-557): find the quoted valid key,
skip its 7 characters, trim whitespace, require a colon, trim whitespace and
test whether the remainder starts with the literal true. -/
def parse_license_response (response_str : List Char) : Bool :=
  match findSub validKeyChars response_str with
  | none => false
  | some start =>
    let after_valid := response_str.drop (start + 7)
    let trimmed := after_valid.dropWhile rustIsWhitespace
    match trimmed with
    | [] => false
    | c :: colon_trimmed =>
      if c = ':' then
        startsWithList trueChars (colon_trimmed.dropWhile rustIsWhitespace)
      else false

/-- Outcome of the blocking HTTP GET issued by the checker.  The two error
cases of try_wait (deadline reached and request failed) are both waitFailed;
the body is the UTF-8 decoding of the response bytes, none when the bytes are
not valid UTF-8 (decoding itself is the out-of-scope transport layer). -/
inductive NetResult where
  | sendFailed
  | waitFailed
  | got (code : Nat) (body : Option (List Char))

/-- Result of one run of the offchain checker: the offchain storage afterwards,
whether a network request was issued, and the returned Result. -/
structure ProbeOutcome where
  st : OffchainState
  networkCalled : Bool
  result : Except String Unit

/-- check_license_and_halt_if_needed (lib.rs lines 476-541): rate-limit by the
last_check timestamp (30000 ms), require a stored UTF-8 license key, issue the
GET (its outcome is the net argument), update last_check once a response
arrived, classify the response (only HTTP 200 with a body whose parse yields
true is valid), and set the halt_requested flag when invalid.

The guard subtraction now.unix_millis() - last_check is plain u64 subtraction
in the source; it is written here as Nat subtraction, which agrees with the
u64 value exactly when last_check ≤ now.  The theorems below use the guard
only under hypotheses that force last_check ≤ now (directly, or because a
Nat-subtraction lower bound implies it), so they hold of the source
regardless of how a u64 underflow (wrap or overflow panic) is resolved. -/
def check_license_and_halt_if_needed (off : OffchainState) (now : Nat)
    (licenseKey : Option (List Nat)) (net : NetResult) : ProbeOutcome :=
  let last_check := off.lastCheck.getD 0
  if now - last_check < 30000 then ⟨off, false, Except.ok ()⟩
  else
    match licenseKey with
    | none => ⟨off, false, Except.error ("License key not set")⟩
    | some keyBytes =>
      if utf8Valid keyBytes then
        match net with
        | NetResult.sendFailed =>
          ⟨off, true, Except.error ("Failed to send license check request")⟩
        | NetResult.waitFailed =>
          ⟨off, true, Except.error ("License check request failed")⟩
        | NetResult.got code body =>
          let off1 : OffchainState := { off with lastCheck := some now }
          if code = 200 then
            match body with
            | none => ⟨off1, true, Except.error ("Invalid UTF8 in response")⟩
            | some bodyText =>
              if parse_license_response bodyText then ⟨off1, true, Except.ok ()⟩
              else ⟨{ off1 with haltRequested := some true }, true, Except.ok ()⟩
          else
            ⟨{ off1 with haltRequested := some true }, true, Except.ok ()⟩
      else ⟨off, false, Except.error ("Invalid license key UTF8")⟩

theorem consume_halt_request_of_halted (n : Nat) (st : ChainState) (off : OffchainState)
    (h : st.haltProduction = true) : consume_halt_request n st off = (st, off) := by
  unfold consume_halt_request
  rcases hb : off.haltRequested with _ | b
  · rfl
  · cases b
    · rfl
    · simp [h]

theorem halt_check_ok_running (n : Nat) (st st2 : ChainState)
    (h : halt_check n st = Except.ok st2) : st2.haltProduction = false := by
  unfold halt_check at h
  split at h
  · split at h
    · split at h
      · simp only [Except.ok.injEq] at h
        subst h
        rfl
      · exact absurd h (by simp)
    · exact absurd h (by simp)
  · simp only [Except.ok.injEq] at h
    subst h
    simp_all

theorem slot_author_check_ok (new_slot : Nat) (st st3 : ChainState) (inp : SlotInput)
    (h : slot_author_check new_slot st inp = Except.ok st3) : st3 = st := by
  unfold slot_author_check at h
  split at h
  · simp only [Except.ok.injEq] at h
    exact h.symm
  · split at h
    · exact absurd h (by simp)
    · split at h
      · exact absurd h (by simp)
      · simp only [Except.ok.injEq] at h
        exact h.symm

theorem aura_slot_check_ok_halt (st st3 : ChainState) (inp : SlotInput)
    (h : aura_slot_check st inp = Except.ok st3) :
    st3.haltProduction = st.haltProduction := by
  unfold aura_slot_check at h
  split at h
  · simp only [Except.ok.injEq] at h
    subst h
    rfl
  · split at h
    · split at h
      · rw [slot_author_check_ok _ _ _ _ h]
      · exact absurd h (by simp)
    · split at h
      · rw [slot_author_check_ok _ _ _ _ h]
      · exact absurd h (by simp)

/-- C10: whenever on_initialize completes without rejecting the block, the
resulting halt flag is false: every successfully initialized block ends the
guard's evaluation in the Running state. -/
theorem accepted_block_implies_running (n : Nat) (st st' : ChainState)
    (off off' : OffchainState) (inp : SlotInput)
    (h : on_initialize n st off inp = Except.ok (st', off')) :
    st'.haltProduction = false := by
  unfold on_initialize at h
  split at h
  · exact absurd h (by simp)
  · rename_i st2 hh
    split at h
    · exact absurd h (by simp)
    · rename_i st3 ha
      simp only [Except.ok.injEq, Prod.mk.injEq] at h
      obtain ⟨h1, h2⟩ := h
      subst h1
      rw [aura_slot_check_ok_halt _ _ _ ha]
      exact halt_check_ok_running _ _ _ hh

/-- Closed witness for accepted_block_implies_running at a concrete successful
initialization. -/
theorem accepted_block_implies_running_witness :
    (⟨0, false, none, none, none⟩ : ChainState).haltProduction = false :=
  accepted_block_implies_running 1 ⟨0, false, none, none, none⟩
    ⟨0, false, none, none, none⟩ ⟨none, none⟩ ⟨none, none⟩
    ⟨none, false, none, fun _ => false⟩ rfl

/-- C8: if block initialization begins with the halt flag set but no recorded
start height, initialization fails (the block is rejected) rather than
continuing silently. -/
theorem halted_without_start_height_fatal (n : Nat) (st : ChainState)
    (off : OffchainState) (inp : SlotInput)
    (h1 : st.haltProduction = true) (h2 : st.haltedAtBlock = none) :
    on_initialize n st off inp =
      Except.error ("Block production halted, no recorded block") := by
  unfold on_initialize
  rw [consume_halt_request_of_halted n st off h1]
  simp [halt_check, h1, h2]

/-- Closed witness for halted_without_start_height_fatal. -/
theorem halted_without_start_height_fatal_witness :
    on_initialize 7 ⟨0, true, none, none, none⟩ ⟨none, none⟩
      ⟨none, false, none, fun _ => false⟩ =
      Except.error ("Block production halted, no recorded block") :=
  halted_without_start_height_fatal 7 ⟨0, true, none, none, none⟩ ⟨none, none⟩
    ⟨none, false, none, fun _ => false⟩ rfl rfl

/-- C3: from a halted state with recorded start height H, block initialization
at height H + 101 succeeds and transitions to Running, clearing the reason and
the start height; block initialization at any height H + k with 1 ≤ k ≤ 100
rejects the block (a rejected block commits no state change). -/
theorem auto_recovery_window (st : ChainState) (off : OffchainState) (inp : SlotInput)
    (H : Nat) (h1 : st.haltProduction = true) (h2 : st.haltedAtBlock = some H)
    (hs : inp.newSlot = none) :
    on_initialize (H + 101) st off inp =
      Except.ok ({ st with haltProduction := false, haltedAtBlock := none,
                           haltReason := none }, off)
    ∧ ∀ k, 1 ≤ k → k ≤ 100 →
        on_initialize (H + k) st off inp = Except.error ("Block production halted") := by
  constructor
  · unfold on_initialize
    rw [consume_halt_request_of_halted _ st off h1]
    have he : H + 101 - H > 100 := by omega
    simp [halt_check, aura_slot_check, h1, h2, hs, he]
  · intro k hk1 hk2
    unfold on_initialize
    rw [consume_halt_request_of_halted _ st off h1]
    have he : ¬(100 < k) := by omega
    simp [halt_check, h1, h2, he]

/-- Closed witness for auto_recovery_window, at start height 10: height 111
auto-recovers, height 60 is rejected. -/
theorem auto_recovery_window_witness :
    on_initialize 111 ⟨0, true, some 10, some [97], none⟩ ⟨none, none⟩
      ⟨none, false, none, fun _ => false⟩ =
      Except.ok (⟨0, false, none, none, none⟩, ⟨none, none⟩)
    ∧ on_initialize 60 ⟨0, true, some 10, some [97], none⟩ ⟨none, none⟩
        ⟨none, false, none, fun _ => false⟩ =
        Except.error ("Block production halted") := by
  have h := auto_recovery_window ⟨0, true, some 10, some [97], none⟩ ⟨none, none⟩
    ⟨none, false, none, fun _ => false⟩ 10 rfl rfl rfl
  exact ⟨h.1, h.2 50 (by decide) (by decide)⟩

/-- C1 counterexample: with the halt state Running and the node-local
halt_requested flag set, block initialization at height 5 directly mutates the
consensus-visible halt flag (first conjunct); the same initialization then
rejects the block, while the identical initialization with the flag absent
succeeds, so the node-local handoff value alone decides the outcome. -/
theorem handoff_mutates_consensus_cex :
    (consume_halt_request 5 ⟨0, false, none, none, none⟩
        ⟨some true, none⟩).1.haltProduction = true
    ∧ on_initialize 5 ⟨0, false, none, none, none⟩ ⟨some true, none⟩
        ⟨none, false, none, fun _ => false⟩ =
        Except.error ("Block production halted")
    ∧ on_initialize 5 ⟨0, false, none, none, none⟩ ⟨none, none⟩
        ⟨none, false, none, fun _ => false⟩ =
        Except.ok (⟨0, false, none, none, none⟩, ⟨none, none⟩) :=
  ⟨rfl, rfl, rfl⟩

/-- C1 (amended): block initialization directly consumes the node-local
halt_requested flag; when the flag is set and the halt state is Running it
mutates the consensus-visible halt state to Halted at the current block with
the fixed reason and clears the flag, and that block's initialization then
fails, so the handoff-driven transition is never committed in an accepted
block. -/
theorem handoff_consumed_then_block_rejected (n : Nat) (st : ChainState)
    (off : OffchainState) (inp : SlotInput)
    (hf : off.haltRequested = some true) (hr : st.haltProduction = false) :
    (consume_halt_request n st off).1.haltProduction = true
    ∧ (consume_halt_request n st off).1.haltedAtBlock = some n
    ∧ (consume_halt_request n st off).1.haltReason = some offchainHaltReason
    ∧ (consume_halt_request n st off).2.haltRequested = none
    ∧ on_initialize n st off inp = Except.error ("Block production halted") := by
  have hc : consume_halt_request n st off =
      ({ st with haltProduction := true, haltedAtBlock := some n,
                 haltReason := some offchainHaltReason },
       { off with haltRequested := none }) := by
    unfold consume_halt_request
    rw [hf]
    simp [hr]
  refine ⟨by rw [hc], by rw [hc], by rw [hc], by rw [hc], ?_⟩
  unfold on_initialize
  rw [hc]
  simp [halt_check]

/-- Closed witness for handoff_consumed_then_block_rejected. -/
theorem handoff_consumed_then_block_rejected_witness :
    (consume_halt_request 3 ⟨0, false, none, none, none⟩
        ⟨some true, some 2⟩).1.haltProduction = true
    ∧ (consume_halt_request 3 ⟨0, false, none, none, none⟩
        ⟨some true, some 2⟩).1.haltedAtBlock = some 3
    ∧ (consume_halt_request 3 ⟨0, false, none, none, none⟩
        ⟨some true, some 2⟩).1.haltReason = some offchainHaltReason
    ∧ (consume_halt_request 3 ⟨0, false, none, none, none⟩
        ⟨some true, some 2⟩).2.haltRequested = none
    ∧ on_initialize 3 ⟨0, false, none, none, none⟩ ⟨some true, some 2⟩
        ⟨none, false, none, fun _ => false⟩ =
        Except.error ("Block production halted") :=
  handoff_consumed_then_block_rejected 3 ⟨0, false, none, none, none⟩
    ⟨some true, some 2⟩ ⟨none, false, none, fun _ => false⟩ rfl rfl

/-- C2 counterexample: from a clean Running state, the privileged halt with a
one-byte reason succeeds and records the reason, but the stored start height
remains absent, contradicting that a recorded start height is present after
the halt. -/
theorem sudo_halt_no_start_height_cex :
    sudo_halt_production ⟨0, false, none, none, none⟩ Origin.Root (some [114]) 5 =
      Except.ok (⟨0, true, none, some [114], none⟩, [Event.ProductionHalted 5])
    ∧ (⟨0, true, none, some [114], none⟩ : ChainState).haltedAtBlock = none :=
  ⟨rfl, rfl⟩

/-- C2 (amended): for every reason of at most 256 bytes, the privileged halt
succeeds, sets the halt flag and stores exactly that reason, and emits
ProductionHalted with the current block height; the stored start height is
left unchanged (so it stays absent when halting from a clean Running state)
and is only recorded at a later block initialization. -/
theorem sudo_halt_records_reason_not_height (st : ChainState) (r : List Nat) (b : Nat)
    (h : r.length ≤ 256) :
    sudo_halt_production st Origin.Root (some r) b =
      Except.ok ({ st with haltProduction := true, haltReason := some r },
        [Event.ProductionHalted b]) := by
  unfold sudo_halt_production halt_production_internal
  simp [h]

/-- Closed witness for sudo_halt_records_reason_not_height. -/
theorem sudo_halt_records_reason_not_height_witness :
    sudo_halt_production ⟨0, false, none, none, none⟩ Origin.Root (some [104, 105]) 12 =
      Except.ok (⟨0, true, none, some [104, 105], none⟩, [Event.ProductionHalted 12]) :=
  sudo_halt_records_reason_not_height ⟨0, false, none, none, none⟩ [104, 105] 12
    (by decide)

/-- C7: after a successful privileged halt, the privileged resume returns the
halt state to Running and clears both the reason and the recorded start
height, emitting ProductionResumed. -/
theorem halt_then_resume_running (st st1 : ChainState) (r : Option (List Nat))
    (b1 b2 : Nat) (ev1 : List Event)
    (_h : sudo_halt_production st Origin.Root r b1 = Except.ok (st1, ev1)) :
    sudo_resume_production st1 Origin.Root b2 =
      Except.ok ({ st1 with haltProduction := false, haltedAtBlock := none,
                            haltReason := none },
        [Event.ProductionResumed b2]) := by
  unfold sudo_resume_production resume_production_internal
  simp

/-- Closed witness for halt_then_resume_running: halt with reason then resume
from the resulting state. -/
theorem halt_then_resume_running_witness :
    sudo_resume_production ⟨0, true, none, some [97], none⟩ Origin.Root 9 =
      Except.ok (⟨0, false, none, none, none⟩, [Event.ProductionResumed 9]) :=
  halt_then_resume_running ⟨0, false, none, none, none⟩ ⟨0, true, none, some [97], none⟩
    (some [97]) 4 9 [Event.ProductionHalted 4] rfl

/-- C5: input-validation failures leave all state unchanged: a halt whose
reason exceeds 256 bytes fails with ReasonTooLong and the dispatched state is
the pre-call state (so HaltProduction stays false if it was false), and
set_license_key with an input exceeding 128 bytes fails with LicenseKeyTooLong
and the dispatched state keeps the prior key or its absence. -/
theorem validation_errors_leave_state_unchanged :
    (∀ (st : ChainState) (r : List Nat) (b : Nat), 256 < r.length →
      sudo_halt_production st Origin.Root (some r) b =
        Except.error DispatchError.ReasonTooLong
      ∧ dispatched st (sudo_halt_production st Origin.Root (some r) b) = st)
    ∧ (∀ (st : ChainState) (key : List Nat), 128 < key.length →
      set_license_key st Origin.Root key =
        Except.error DispatchError.LicenseKeyTooLong
      ∧ (dispatched st (set_license_key st Origin.Root key)).licenseKey =
          st.licenseKey) := by
  constructor
  · intro st r b hlen
    have he : ¬(r.length ≤ 256) := by omega
    have h1 : sudo_halt_production st Origin.Root (some r) b =
        Except.error DispatchError.ReasonTooLong := by
      unfold sudo_halt_production halt_production_internal
      simp [he]
    exact ⟨h1, by rw [h1]; rfl⟩
  · intro st key hlen
    have he : ¬(key.length ≤ 128) := by omega
    have h1 : set_license_key st Origin.Root key =
        Except.error DispatchError.LicenseKeyTooLong := by
      unfold set_license_key
      simp [he]
    exact ⟨h1, by rw [h1]; rfl⟩

/-- Closed witness for validation_errors_leave_state_unchanged at a 257-byte
reason and a 129-byte key. -/
theorem validation_errors_leave_state_unchanged_witness :
    sudo_halt_production ⟨0, false, none, none, none⟩ Origin.Root
        (some (List.replicate 257 0)) 3 =
      Except.error DispatchError.ReasonTooLong
    ∧ set_license_key ⟨0, false, none, none, some [1]⟩ Origin.Root
        (List.replicate 129 0) =
      Except.error DispatchError.LicenseKeyTooLong :=
  ⟨(validation_errors_leave_state_unchanged.1 ⟨0, false, none, none, none⟩
      (List.replicate 257 0) 3 (by rw [List.length_replicate]; omega)).1,
   (validation_errors_leave_state_unchanged.2 ⟨0, false, none, none, some [1]⟩
      (List.replicate 129 0) (by rw [List.length_replicate]; omega)).1⟩

/-- C4: the filter admits the mandatory timestamp-set operation in every halt
state; while Running it admits every operation; while Halted it admits an
operation exactly when it is one of the resume predicates, the unprivileged
request-halt operation, or a sudo wrapper unwrapping to an allowed call, and
rejects every other operation. -/
theorem halt_filter_admission :
    (∀ (st : ChainState) (c : RuntimeCall), c.is_timestamp_set = true →
      AuraHaltFilter.contains st c = true)
    ∧ (∀ (st : ChainState) (c : RuntimeCall), st.haltProduction = false →
      AuraHaltFilter.contains st c = true)
    ∧ (∀ (st : ChainState) (c : RuntimeCall), st.haltProduction = true →
      (AuraHaltFilter.contains st c = true ↔
        (c.is_timestamp_set = true ∨ c.is_sudo_resume_production = true
          ∨ c.is_offchain_worker_halt = true ∨ c.is_offchain_worker_resume = true
          ∨ c.is_sudo_wrapping_allowed = true))) := by
  refine ⟨?_, ?_, ?_⟩
  · intro st c h
    simp [AuraHaltFilter.contains, h]
  · intro st c h
    simp [AuraHaltFilter.contains, is_halted, h]
  · intro st c h
    rcases c with ⟨a, b2, d, e, f⟩
    cases a <;> cases b2 <;> cases d <;> cases e <;> cases f <;>
      simp [AuraHaltFilter.contains, allowed_while_halted, is_halted, h]

/-- Closed witness for halt_filter_admission: the clock call passes while
halted, an arbitrary call passes while running, and a direct resume call
passes while halted. -/
theorem halt_filter_admission_witness :
    AuraHaltFilter.contains ⟨0, true, some 1, none, none⟩
      ⟨false, false, false, false, true⟩ = true
    ∧ AuraHaltFilter.contains ⟨0, false, none, none, none⟩
      ⟨false, false, false, false, false⟩ = true
    ∧ AuraHaltFilter.contains ⟨0, true, some 1, none, none⟩
      ⟨true, false, false, false, false⟩ = true :=
  ⟨halt_filter_admission.1 ⟨0, true, some 1, none, none⟩
      ⟨false, false, false, false, true⟩ rfl,
   halt_filter_admission.2.1 ⟨0, false, none, none, none⟩
      ⟨false, false, false, false, false⟩ rfl,
   (halt_filter_admission.2.2 ⟨0, true, some 1, none, none⟩
      ⟨true, false, false, false, false⟩ rfl).mpr (Or.inr (Or.inl rfl))⟩

/-- C6: the response classification accepts the exact body with valid true,
also with a space after the colon, rejects valid false, rejects every body in
which the quoted key valid does not occur, and in the checker any response
with a status code other than 200 is treated as invalid regardless of body
(the halt request flag is set). -/
theorem license_response_classification :
    parse_license_response (("\x7b\"valid\":true\x7d").toList) = true
    ∧ parse_license_response (("\x7b\"valid\": true\x7d").toList) = true
    ∧ parse_license_response (("\x7b\"valid\":false\x7d").toList) = false
    ∧ (∀ body : List Char, findSub validKeyChars body = none →
        parse_license_response body = false)
    ∧ (∀ (off : OffchainState) (now : Nat) (key : List Nat) (code : Nat)
        (body : Option (List Char)),
        off.lastCheck = none → 30000 ≤ now → utf8Valid key = true → code ≠ 200 →
        (check_license_and_halt_if_needed off now (some key)
            (NetResult.got code body)).st.haltRequested = some true) := by
  refine ⟨by decide, by decide, by decide, ?_, ?_⟩
  · intro body h
    unfold parse_license_response
    rw [h]
  · intro off now key code body h1 h2 h3 h4
    unfold check_license_and_halt_if_needed
    rw [h1]
    rw [if_neg (by simp; omega : ¬(now - Option.getD (none : Option Nat) 0 < 30000))]
    simp [h3, h4]

/-- Closed witness for license_response_classification: a body with no valid
key is rejected, and a 500 response sets the halt request. -/
theorem license_response_classification_witness :
    parse_license_response (("no key here").toList) = false
    ∧ (check_license_and_halt_if_needed ⟨none, none⟩ 30000 (some [107])
        (NetResult.got 500 none)).st.haltRequested = some true :=
  ⟨license_response_classification.2.2.2.1 (("no key here").toList) (by decide),
   license_response_classification.2.2.2.2 ⟨none, none⟩ 30000 [107] 500 none
     rfl (by decide) (by decide) (by decide)⟩

/-- C9: a probe starting at or after the stored last_check timestamp and less
than 30000 ms after it performs no network call and returns immediately with
nothing changed (with last_check at most now, the Nat guard subtraction
coincides with the source's u64 subtraction); and after every probe attempt
that received a response, last_check is updated to the current time, also
when the validity result is invalid. -/
theorem probe_rate_limit :
    (∀ (off : OffchainState) (t now : Nat) (key : Option (List Nat)) (net : NetResult),
      off.lastCheck = some t → t ≤ now → now < t + 30000 →
      check_license_and_halt_if_needed off now key net = ⟨off, false, Except.ok ()⟩)
    ∧ (∀ (off : OffchainState) (now : Nat) (key : List Nat) (code : Nat)
        (body : Option (List Char)),
        30000 ≤ now - off.lastCheck.getD 0 → utf8Valid key = true →
        (check_license_and_halt_if_needed off now (some key)
            (NetResult.got code body)).st.lastCheck = some now) := by
  constructor
  · intro off t now key net h1 h2 h3
    unfold check_license_and_halt_if_needed
    rw [h1]
    rw [if_pos (by simp; omega : now - Option.getD (some t) 0 < 30000)]
  · intro off now key code body h1 h2
    unfold check_license_and_halt_if_needed
    rw [if_neg (by omega : ¬(now - off.lastCheck.getD 0 < 30000))]
    simp only [h2, if_true]
    by_cases hc : code = 200
    · rw [if_pos hc]
      cases body
      · rfl
      · rename_i bodyText
        by_cases hp : parse_license_response bodyText = true
        · simp [hp]
        · simp [hp]
    · rw [if_neg hc]

/-- Closed witness for probe_rate_limit: a probe 10000 ms after the previous
one does nothing, and a probe receiving a failing body updates last_check. -/
theorem probe_rate_limit_witness :
    check_license_and_halt_if_needed ⟨none, some 100⟩ 10100 (some [107])
      NetResult.sendFailed = ⟨⟨none, some 100⟩, false, Except.ok ()⟩
    ∧ (check_license_and_halt_if_needed ⟨none, some 100⟩ 40000 (some [107])
        (NetResult.got 200 (some (("ok").toList)))).st.lastCheck = some 40000 :=
  ⟨probe_rate_limit.1 ⟨none, some 100⟩ 100 10100 (some [107]) NetResult.sendFailed
      rfl (by decide) (by decide),
   probe_rate_limit.2 ⟨none, some 100⟩ 40000 [107] 200 (some (("ok").toList))
      (by decide) (by decide)⟩

end LicensedAura
